import Mathlib

/-!
Shallow embedding of the reconciliation/status engine of the
spark-configuration-hub charm, together with proofs of the specification
claims about it.

The repository contains two charm variants:
* the events/managers variant (`src/events/base.py`, `src/managers/*.py`,
  `src/core/context.py`, `src/workload.py`), and
* the flat variant (`src/charm.py`, `src/models.py`, `src/config.py`).

Both are embedded here.  External collaborators (the pebble supervisor, the
boto3 S3 client, the Kubernetes API) are abstracted as boolean oracles or
abstract probe outcomes, exactly at the boundary where the python code
receives their answers.
-/

namespace SparkHub

/-! ## Basic domain data -/

/-- Python-level errors that the embedded code can raise.  Only the error
kinds that the embedded code paths can actually produce are listed. -/
inductive PyError where
  | attributeError
  | fileNotFoundError
  | ioError
  | sslError
  | otherError
deriving DecidableEq, Repr

/-- `true` iff the embedded call raised a python exception instead of
returning a value. -/
def pyRaises {α : Type} : Except PyError α → Bool
  | Except.error _ => true
  | Except.ok _ => false

/-- Outcome of the single `list_buckets` probe issued against the S3
endpoint by the verification code.  This is the boundary with the boto3
client: `clientError` is botocore's `ClientError` (bad credentials),
`sslError` is botocore's `SSLError` (certificate validation failure),
`otherError` is any other exception raised by the call. -/
inductive ProbeResult where
  | ok
  | clientError
  | sslError
  | otherError
deriving DecidableEq, Repr

/-- `S3ConnectionInfo` from `src/models.py` (fields `endpoint`, `access_key`,
`secret_key`, `path`, `bucket`) extended with the `tls_ca_chain` field that
`src/managers/s3.py` reads from its `core.domain.S3ConnectionInfo` config
(that module is not under `src/`; the field is taken from the spec's data
model, which lists it as an optional ordered sequence of certificate
strings). -/
structure S3ConnectionInfo where
  endpoint : Option String
  access_key : String
  secret_key : String
  path : String
  bucket : String
  tls_ca_chain : Option (List String) := none
deriving DecidableEq, Repr

/-- `S3ConnectionInfo.log_dir` from `src/models.py`:
`f"s3a://{self.bucket}/{self.path}"`. -/
def S3ConnectionInfo.log_dir (s3 : S3ConnectionInfo) : String :=
  "s3a://" ++ s3.bucket ++ "/" ++ s3.path

/-! ## Status engines -/

/-- The `Status` enum of `src/core/context.py` (the events/managers
variant): WAITING_PEBBLE, INVALID_CREDENTIALS, NOT_RUNNING, NOT_TRUSTED,
ACTIVE. -/
inductive Status where
  | WAITING_PEBBLE
  | INVALID_CREDENTIALS
  | NOT_RUNNING
  | NOT_TRUSTED
  | ACTIVE
deriving DecidableEq, Repr

/-- `BaseEventHandler.get_app_status` from `src/events/base.py`.  The
boundary calls are abstracted exactly where the python code makes them:
`ready` is `self.workload.ready()`, `trusted` is
`KubernetesManager(...).trusted()`, `verify` is `S3Manager(s3).verify()`
(invoked only when `s3` is present), `active` is `self.workload.active()`.
The `pushgateway` argument of the python function is unused by its body and
is omitted. -/
def get_app_status (ready trusted : Bool) (s3 : Option S3ConnectionInfo)
    (verify : S3ConnectionInfo → Bool) (active : Bool) : Status :=
  if !ready then Status.WAITING_PEBBLE
  else if !trusted then Status.NOT_TRUSTED
  else match s3 with
    | some info =>
        if !(verify info) then Status.INVALID_CREDENTIALS
        else if !active then Status.NOT_RUNNING
        else Status.ACTIVE
    | none =>
        if !active then Status.NOT_RUNNING
        else Status.ACTIVE

/-- `S3Manager.verify` from `src/managers/s3.py`, as a function of the
outcome of the single `list_buckets` probe.  The session construction and
the scoped temporary file holding `tls_ca_chain` only shape how the client
is built and have no influence on the return value; the function's result
is decided entirely by the `try/except` around `s3.list_buckets()`:
`except ClientError: return False`, `except SSLError: return False`,
`except Exception: return False`, and `return True` on success. -/
def S3Manager.verify (probe : ProbeResult) : Bool :=
  match probe with
  | .ok => true
  | .clientError => false
  | .sslError => false
  | .otherError => false

/-- `S3ConnectionInfo.verify` from `src/models.py`, as a function of the
probe outcome.  Its `try/except` catches only `ClientError` (returning
`False`); an `SSLError` or any other exception raised by `list_buckets`
escapes the call. -/
def S3ConnectionInfo.verify (probe : ProbeResult) : Except PyError Bool :=
  match probe with
  | .ok => Except.ok true
  | .clientError => Except.ok false
  | .sslError => Except.error PyError.sslError
  | .otherError => Except.error PyError.otherError

/-- The `Status` enum of `src/models.py` (the flat charm variant):
INSTALL, MISSING_PERMISSIONS, INVALID_CREDENTIALS, ACTIVE.  Note that it
has no `MISSING_S3_RELATION` member. -/
inductive ModelsStatus where
  | INSTALL
  | MISSING_PERMISSIONS
  | INVALID_CREDENTIALS
  | ACTIVE
deriving DecidableEq, Repr

/-- `SparkConfigurationHubCharm.get_status` from `src/charm.py`.  When no
S3 connection info is present, the python body executes
`return Status.MISSING_S3_RELATION.value`; `MISSING_S3_RELATION` is not a
member of the `Status` enum in `src/models.py`, so the attribute lookup
raises `AttributeError`.  When S3 is present, the body calls
`s3.verify()` (the `src/models.py` verify, which can itself raise) and
maps `false` to INVALID_CREDENTIALS and `true` to ACTIVE. -/
def get_status (s3 : Option S3ConnectionInfo) (probe : ProbeResult) :
    Except PyError ModelsStatus :=
  match s3 with
  | none => Except.error PyError.attributeError
  | some _ =>
      match S3ConnectionInfo.verify probe with
      | Except.error e => Except.error e
      | Except.ok v =>
          if !v then Except.ok ModelsStatus.INVALID_CREDENTIALS
          else Except.ok ModelsStatus.ACTIVE

/-! ## String primitives used by the configuration renderers -/

/-- Boolean prefix test on character lists; models python's
`str.startswith` applied to the underlying character sequences. -/
def listStartsWith : List Char → List Char → Bool
  | [], _ => true
  | _ :: _, [] => false
  | a :: as, b :: bs => a == b && listStartsWith as bs

/-- Boolean substring test on character lists; models python's
`needle in haystack` on strings. -/
def containsSub (needle : List Char) : List Char → Bool
  | [] => needle.isEmpty
  | c :: rest => listStartsWith needle (c :: rest) || containsSub needle rest

/-- Lexicographic `≤` on character lists, comparing code points; models
the ordering python's `sorted` uses on strings. -/
def charListLe : List Char → List Char → Bool
  | [], _ => true
  | _ :: _, [] => false
  | a :: as, b :: bs =>
      if a < b then true
      else if b < a then false
      else charListLe as bs

/-- Lexicographic `≤` on strings (python string comparison). -/
def strLe (a b : String) : Bool := charListLe a.data b.data

/-- Python truthiness-based default: `e or d` for an optional string `e`,
which yields `d` when `e` is absent or the empty string. -/
def pyOrDefault (e : Option String) (d : String) : String :=
  match e with
  | none => d
  | some s => if s = "" then d else s

/-! ## Configuration renderers -/

/-- `ConfigurationHubConfig._ssl_enabled` from
`src/managers/configuration_hub.py` (leading underscore dropped):
`if not endpoint or endpoint.startswith("https:") or ":443" in endpoint:
return "true"` — `not endpoint` is true for an absent endpoint and for the
empty string — `return "false"` otherwise. -/
def ConfigurationHubConfig.ssl_enabled (endpoint : Option String) : String :=
  match endpoint with
  | none => "true"
  | some s =>
      if s = "" || listStartsWith "https:".data s.data ||
          containsSub ":443".data s.data then "true"
      else "false"

/-- Python dict lookup `d[k]` on an association list (python dicts have
unique keys; on duplicate-free lists this is exact).  A missing key is
total-ized to `""`; the embedded code only looks up keys of the dict. -/
def lookupD (d : List (String × String)) (k : String) : String :=
  match d.find? (fun p => p.1 == k) with
  | some p => p.2
  | none => ""

/-- Generic association-list lookup (python dict membership/lookup). -/
def lookupAL {β : Type} (l : List (String × β)) (k : String) : Option β :=
  (l.find? (fun p => p.1 == k)).map (fun p => p.2)

/-- Python dict union `a | b` on association lists: keys of `a` in their
order with `b`'s value winning on conflict, followed by the keys of `b`
not present in `a`, in `b`'s order. -/
def dictUnion {β : Type} (a b : List (String × β)) : List (String × β) :=
  a.map (fun p =>
    ((b.find? (fun q => q.1 == p.1)).map (fun q => (p.1, q.2))).getD p) ++
  b.filter (fun q => (a.find? (fun p => p.1 == q.1)).isNone)

/-- `sorted(dict_content.keys())` from the `contents` properties: the keys
of the dict sorted lexicographically ascending. -/
def sortedKeys (d : List (String × String)) : List String :=
  List.insertionSort (fun a b : String => strLe a b = true) (d.map Prod.fst)

/-- The (key, value) pairs that survive the list comprehension of
`contents`: keys in sorted order, entries with an empty value dropped. -/
def configPairs (d : List (String × String)) : List (String × String) :=
  (sortedKeys d).filterMap fun k =>
    if lookupD d k = "" then none else some (k, lookupD d k)

/-- The `f"{key}={value}"` lines of the `contents` properties:
`[f"{key}={value}" for key in sorted(dict_content.keys())
if (value := dict_content[key])]`. -/
def configLines (d : List (String × String)) : List String :=
  (sortedKeys d).filterMap fun k =>
    if lookupD d k = "" then none else some (k ++ "=" ++ lookupD d k)

/-- `"\n".join(...)` over the lines: the serialized configuration text,
shared verbatim by `ConfigurationHubConfig.contents`
(`src/managers/configuration_hub.py`) and
`SparkConfigurationHubConfig.contents` (`src/config.py`). -/
def pyContents (d : List (String × String)) : String :=
  String.intercalate "\n" (configLines d)

/-- `ConfigurationHubConfig._base_conf` from
`src/managers/configuration_hub.py`: the empty dict. -/
def ConfigurationHubConfig.base_conf : List (String × String) := []

/-- `ConfigurationHubConfig._s3_conf` from
`src/managers/configuration_hub.py`: the S3 overlay, present only when an
S3 connection info is held; `s3.endpoint or "https://s3.amazonaws.com"`
applies the default for an absent or empty endpoint. -/
def ConfigurationHubConfig.s3_conf :
    Option S3ConnectionInfo → List (String × String)
  | some s3 =>
      [("spark.hadoop.fs.s3a.endpoint",
        pyOrDefault s3.endpoint "https://s3.amazonaws.com"),
       ("spark.hadoop.fs.s3a.access.key", s3.access_key),
       ("spark.hadoop.fs.s3a.secret.key", s3.secret_key),
       ("spark.eventLog.dir", s3.log_dir),
       ("spark.history.fs.logDirectory", s3.log_dir),
       ("spark.hadoop.fs.s3a.aws.credentials.provider",
        "org.apache.hadoop.fs.s3a.SimpleAWSCredentialsProvider"),
       ("spark.hadoop.fs.s3a.connection.ssl.enabled",
        ConfigurationHubConfig.ssl_enabled s3.endpoint)]
  | none => []

/-- `ConfigurationHubConfig.to_dict`: `self._base_conf | self._s3_conf`. -/
def ConfigurationHubConfig.to_dict (s3 : Option S3ConnectionInfo) :
    List (String × String) :=
  dictUnion ConfigurationHubConfig.base_conf (ConfigurationHubConfig.s3_conf s3)

/-- `ConfigurationHubConfig.contents` from
`src/managers/configuration_hub.py`. -/
def ConfigurationHubConfig.contents (s3 : Option S3ConnectionInfo) : String :=
  pyContents (ConfigurationHubConfig.to_dict s3)

/-- `SparkConfigurationHubConfig._base_conf` from `src/config.py`: fixed
base mapping; note that it pins `spark.hadoop.fs.s3a.connection.ssl.enabled`
to `"false"`. -/
def SparkConfigurationHubConfig.base_conf : List (String × String) :=
  [("spark.hadoop.fs.s3a.connection.ssl.enabled", "false"),
   ("spark.hadoop.fs.s3a.path.style.access", "true"),
   ("spark.eventLog.enabled", "true")]

/-- `SparkConfigurationHubConfig._s3_conf` from `src/config.py`: like the
managers variant but without any SSL-enabled entry. -/
def SparkConfigurationHubConfig.s3_conf :
    Option S3ConnectionInfo → List (String × String)
  | some s3 =>
      [("spark.hadoop.fs.s3a.endpoint",
        pyOrDefault s3.endpoint "https://s3.amazonaws.com"),
       ("spark.hadoop.fs.s3a.access.key", s3.access_key),
       ("spark.hadoop.fs.s3a.secret.key", s3.secret_key),
       ("spark.eventLog.dir", s3.log_dir),
       ("spark.history.fs.logDirectory", s3.log_dir),
       ("spark.hadoop.fs.s3a.aws.credentials.provider",
        "org.apache.hadoop.fs.s3a.SimpleAWSCredentialsProvider")]
  | none => []

/-- `SparkConfigurationHubConfig.to_dict`: `self._base_conf | self._s3_conf`. -/
def SparkConfigurationHubConfig.to_dict (s3 : Option S3ConnectionInfo) :
    List (String × String) :=
  dictUnion SparkConfigurationHubConfig.base_conf
    (SparkConfigurationHubConfig.s3_conf s3)

/-- `SparkConfigurationHubConfig.contents` from `src/config.py`. -/
def SparkConfigurationHubConfig.contents (s3 : Option S3ConnectionInfo) : String :=
  pyContents (SparkConfigurationHubConfig.to_dict s3)

/-! ## Workload state machine -/

/-- Path of the spark-properties configuration file:
`ConfigurationHubPaths.spark_properties` from `src/core/workload.py`
(`conf_path / "spark-properties.conf"`) with `CONFS_PATH =
"/etc/spark/conf"` from `src/workload.py`. -/
def sparkPropertiesPath : String := "/etc/spark/conf/spark-properties.conf"

/-- `SparkHistoryServer.ENV_FILE` from `src/workload.py`. -/
def envFilePath : String := "/etc/spark/environment"

/-- Observable state of the managed workload: the container filesystem
(path ↦ contents), the persisted environment mapping (`self.envs`), the
environment currently applied to the supervisor's service layer, and
whether the managed service is running. -/
structure WorkloadState where
  files : List (String × String)
  envs : List (String × String)
  serviceEnv : List (String × String)
  running : Bool
deriving DecidableEq, Repr

/-- Filesystem write: replaces the contents at `path` in place, or appends
a new entry.  The filesystem is a map; no entry ordering is observable. -/
def writeFile (files : List (String × String)) (path content : String) :
    List (String × String) :=
  if files.any (fun p => p.1 == path) then
    files.map (fun p => if p.1 == path then (path, content) else p)
  else files ++ [(path, content)]

/-- `exists` on the modelled filesystem. -/
def hasFile (files : List (String × String)) (path : String) : Bool :=
  files.any (fun p => p.1 == path)

/-- Injected I/O failures of the container boundary: `writeFails` makes
the filesystem push raise, `startFails` makes the supervisor `restart`
call raise. -/
structure FaultModel where
  writeFails : Bool
  startFails : Bool
deriving DecidableEq, Repr

/-- The fault-free container boundary. -/
def noFault : FaultModel := ⟨false, false⟩

/-- Result of an embedded python call that returns nothing: either normal
completion or a raised error. -/
abbrev PyResult := Except PyError Unit

/-- The workload `write` primitive (`AbstractWorkload.write`, implemented
by the container push): writes `content` at `path`; an injected I/O
failure raises and leaves the filesystem unchanged. -/
def Workload.writeRun (fault : FaultModel) (content path : String)
    (st : WorkloadState) : PyResult × WorkloadState :=
  if fault.writeFails then (Except.error PyError.ioError, st)
  else (Except.ok (), { st with files := writeFile st.files path content })

/-- `SparkHistoryServer.stop` from `src/workload.py`:
`container.stop(service)`; stopping an already stopped service is a
no-op. -/
def Workload.stopRun (st : WorkloadState) : WorkloadState :=
  { st with running := false }

/-- The environment merge of `SparkHistoryServer.set_environment` in
`src/workload.py`: `merged_envs = self.envs | env` followed by
`{k: v for k, v in merged_envs.items() if v is not None}`. -/
def pyMergeEnv (envs : List (String × String))
    (env : List (String × Option String)) : List (String × String) :=
  (dictUnion (envs.map (fun p => (p.1, some p.2))) env).filterMap
    (fun p => p.2.map (fun v => (p.1, v)))

/-- `to_env` from the environment-persistence boundary.  Modelled from the
spec: `common/utils.py` is not under `src/`; §6 of the spec fixes the
persisted format as one `KEY=VALUE` line per entry. -/
def to_env (envs : List (String × String)) : List String :=
  envs.map (fun p => p.1 ++ "=" ++ p.2)

/-- `"\n".join(self.to_env(self.envs))`: the persisted environment-file
text written by `set_environment`. -/
def serializeEnvs (envs : List (String × String)) : String :=
  String.intercalate "\n" (to_env envs)

/-- `SparkHistoryServer.set_environment` from `src/workload.py`: merge the
partial mapping into `self.envs` (a key mapped to `None` is removed), then
persist the result to `ENV_FILE` via `self.write`.  The live service layer
(`serviceEnv`) is untouched; it picks the new mapping up only on the next
`start`. -/
def Workload.setEnvironmentRun (fault : FaultModel)
    (env : List (String × Option String)) (st : WorkloadState) :
    PyResult × WorkloadState :=
  let newEnvs := pyMergeEnv st.envs env
  Workload.writeRun fault (serializeEnvs newEnvs) envFilePath
    { st with envs := newEnvs }

/-- `SparkHistoryServer.start` from `src/workload.py`: merge the
declarative layer carrying `self.envs` into the supervisor plan
(`container.add_layer(..., combine=True)`, modelled as updating
`serviceEnv`), then raise `FileNotFoundError` if the spark-properties file
is missing, else restart the managed service (an injected supervisor
failure raises instead, leaving the service stopped).  The source spells
the merged layer attribute `_spark_history_server_layer`; the layer
property the class defines is `_spark_configuration_hub_layer`
(`{"services": {service: {"environment": self.envs}}}`), which is the
layer modelled here, the base classes resolving the attribute not being
under `src/`. -/
def Workload.startRun (fault : FaultModel) (st : WorkloadState) :
    PyResult × WorkloadState :=
  let st1 := { st with serviceEnv := st.envs }
  if !(hasFile st1.files sparkPropertiesPath) then
    (Except.error PyError.fileNotFoundError, st1)
  else if fault.startFails then (Except.error PyError.ioError, st1)
  else (Except.ok (), { st1 with running := true })

/-- `ConfigurationHubManager.update` from
`src/managers/configuration_hub.py`: stop, render, write the rendered
contents to the spark-properties path, merge `SPARK_PROPERTIES_FILE` into
the environment, start.  There is no `try/except`: an exception raised by
any step propagates to the caller and aborts the rest of the sequence. -/
def ConfigurationHubManager.update (fault : FaultModel)
    (s3 : Option S3ConnectionInfo) (st : WorkloadState) :
    PyResult × WorkloadState :=
  let st0 := Workload.stopRun st
  match Workload.writeRun fault (ConfigurationHubConfig.contents s3)
      sparkPropertiesPath st0 with
  | (Except.error e, st1) => (Except.error e, st1)
  | (Except.ok _, st1) =>
      match Workload.setEnvironmentRun fault
          [("SPARK_PROPERTIES_FILE", some sparkPropertiesPath)] st1 with
      | (Except.error e, st2) => (Except.error e, st2)
      | (Except.ok _, st2) => Workload.startRun fault st2

/-- The specification's description of a rendered configuration text for
dict `d`: the serialized text is the newline-join of one `key=value` line
per entry of `configPairs d`; the keys of `configPairs d` are sorted
lexicographically ascending and duplicate-free; and a pair `(k, v)`
occurs in `configPairs d` exactly when `k` is a key of `d` whose value
`v` is non-empty.  (No trailing separator can arise: `String.intercalate`
places `"\n"` strictly between entries.) -/
def RendersSortedKV (contents : String) (d : List (String × String)) : Prop :=
  contents = String.intercalate "\n" ((configPairs d).map (fun p => p.1 ++ "=" ++ p.2)) ∧
  ((configPairs d).map Prod.fst).Sorted (fun a b : String => a ≤ b) ∧
  ((configPairs d).map Prod.fst).Nodup ∧
  ∀ k v : String, (k, v) ∈ configPairs d ↔
    (k ∈ d.map Prod.fst ∧ v = lookupD d k ∧ v ≠ "")

/-! ## Theorems -/

/-- C1: The status computation of `get_app_status` is an ordered decision
chain, first match wins: `ready = false` yields WAITING_PEBBLE regardless
of the other inputs; `ready = true, trusted = false` yields NOT_TRUSTED
regardless of the other inputs; with `ready` and `trusted` both true and an
S3 connection present whose verification fails, the result is
INVALID_CREDENTIALS; otherwise the services-active check decides between
NOT_RUNNING and ACTIVE. -/
theorem c1_status_decision_chain
    (s3 : Option S3ConnectionInfo)
    (verify : S3ConnectionInfo → Bool) (active : Bool) :
    (∀ t : Bool, get_app_status false t s3 verify active = Status.WAITING_PEBBLE) ∧
    get_app_status true false s3 verify active = Status.NOT_TRUSTED ∧
    (∀ info : S3ConnectionInfo,
      get_app_status true true (some info) verify active =
        if verify info then
          (if active then Status.ACTIVE else Status.NOT_RUNNING)
        else Status.INVALID_CREDENTIALS) ∧
    get_app_status true true none verify active =
      if active then Status.ACTIVE else Status.NOT_RUNNING := by
  refine ⟨fun t => rfl, rfl, fun info => ?_, ?_⟩
  · by_cases hv : verify info <;> by_cases ha : active <;>
      simp [get_app_status, hv, ha]
  · by_cases ha : active <;> simp [get_app_status, ha]

/-- C3 counterexample: the claim says that for every S3 connection info no
exception escapes `verify()` and TLS errors result in `false`; but
`S3ConnectionInfo.verify` in `src/models.py` catches only `ClientError`,
so a TLS/certificate-validation failure of the probe escapes as an
exception instead of returning `false`. -/
theorem c3_models_verify_ssl_escapes :
    pyRaises (S3ConnectionInfo.verify ProbeResult.sslError) = true ∧
    S3ConnectionInfo.verify ProbeResult.sslError = Except.error PyError.sslError := by
  exact ⟨rfl, rfl⟩

/-- C3 (amended): `S3Manager.verify` in `src/managers/s3.py` is total —
for every probe outcome it returns a boolean, with credential errors,
TLS/certificate-validation errors and any other unexpected error all
mapped to `false` — while `S3ConnectionInfo.verify` in `src/models.py`
absorbs only credential (`ClientError`) failures into `false`; TLS and
other unexpected errors propagate out of it as exceptions. -/
theorem c3_verify_totality :
    S3Manager.verify ProbeResult.ok = true ∧
    S3Manager.verify ProbeResult.clientError = false ∧
    S3Manager.verify ProbeResult.sslError = false ∧
    S3Manager.verify ProbeResult.otherError = false ∧
    S3ConnectionInfo.verify ProbeResult.ok = Except.ok true ∧
    S3ConnectionInfo.verify ProbeResult.clientError = Except.ok false ∧
    S3ConnectionInfo.verify ProbeResult.sslError = Except.error PyError.sslError ∧
    S3ConnectionInfo.verify ProbeResult.otherError = Except.error PyError.otherError := by
  exact ⟨rfl, rfl, rfl, rfl, rfl, rfl, rfl, rfl⟩

/-- C2: the claim says `get_status(None)` returns a member of the `Status`
enumeration and never raises; the code instead raises `AttributeError`
because `Status.MISSING_S3_RELATION` is not defined in `src/models.py`. -/
theorem c2_get_status_none_raises :
    get_status none ProbeResult.ok = Except.error PyError.attributeError ∧
    pyRaises (get_status none ProbeResult.ok) = true := by
  exact ⟨rfl, rfl⟩

/-- C10: the SSL-enabled derivation treats ":443" as a plain substring of
the endpoint string: an absent endpoint yields "true"; any endpoint string
containing ":443" anywhere yields "true"; and the result is "false"
exactly for a non-empty endpoint that does not start with "https:" and
does not contain ":443". -/
theorem c10_ssl_enabled_substring (s : String) :
    ConfigurationHubConfig.ssl_enabled none = "true" ∧
    (containsSub ":443".data s.data = true →
      ConfigurationHubConfig.ssl_enabled (some s) = "true") ∧
    (ConfigurationHubConfig.ssl_enabled (some s) = "false" ↔
      (s ≠ "" ∧ listStartsWith "https:".data s.data = false ∧
       containsSub ":443".data s.data = false)) := by
  refine ⟨rfl, ?_, ?_⟩
  · intro h
    simp [ConfigurationHubConfig.ssl_enabled, h]
  · constructor
    · intro h
      by_cases he : s = "" <;> by_cases hp : listStartsWith "https:".data s.data <;>
        by_cases hc : containsSub ":443".data s.data <;>
        simp_all [ConfigurationHubConfig.ssl_enabled]
    · rintro ⟨he, hp, hc⟩
      simp [ConfigurationHubConfig.ssl_enabled, he, hp, hc]

/-- C10 witness: the endpoint "http://x:4430" has actual port 4430, yet
contains ":443" as a substring, so the derivation yields "true". -/
theorem c10_ssl_enabled_substring_witness :
    ConfigurationHubConfig.ssl_enabled (some "http://x:4430") = "true" :=
  (c10_ssl_enabled_substring "http://x:4430").2.1 (by decide)


theorem charListLe_iff_not_lex :
    ∀ as bs : List Char, charListLe as bs = true ↔ ¬ List.Lex (· < ·) bs as
  | [], bs => by
      simp [charListLe]
  | _ :: _, [] => by
      simp [charListLe]
      exact List.Lex.nil
  | a :: as, b :: bs => by
      by_cases hab : a < b
      · simp only [charListLe, if_pos hab, true_iff]
        intro hlex
        cases hlex with
        | rel h => exact absurd hab (asymm h)
        | cons h => exact lt_irrefl a hab
      · by_cases hba : b < a
        · simp only [charListLe, if_neg hab, if_pos hba]
          constructor
          · intro h
            cases h
          · intro h
            exact absurd (List.Lex.rel hba) h
        · have heq : a = b := le_antisymm (le_of_not_lt hba) (le_of_not_lt hab)
          subst heq
          simp only [charListLe, if_neg hab, if_neg hba]
          rw [charListLe_iff_not_lex as bs]
          constructor
          · intro h hlex
            cases hlex with
            | rel hr => exact lt_irrefl a hr
            | cons h2 => exact h h2
          · intro h hlex
            exact h (List.Lex.cons hlex)

theorem strLe_iff_le (a b : String) : strLe a b = true ↔ a ≤ b := by
  rw [← not_lt]
  have h1 : b < a ↔ b.toList < a.toList := String.lt_iff_toList_lt
  rw [h1]
  exact charListLe_iff_not_lex a.data b.data

theorem strLe_total (a b : String) : strLe a b = true ∨ strLe b a = true := by
  rw [strLe_iff_le, strLe_iff_le]
  exact le_total a b

theorem strLe_trans {a b c : String} (h1 : strLe a b = true)
    (h2 : strLe b c = true) : strLe a c = true := by
  rw [strLe_iff_le] at h1 h2 ⊢
  exact le_trans h1 h2

theorem sortedKeys_sorted (d : List (String × String)) :
    (sortedKeys d).Sorted (fun a b : String => strLe a b = true) :=
  @List.sorted_insertionSort String (fun a b => strLe a b = true)
    (fun a b => instDecidableEqBool (strLe a b) true)
    ⟨strLe_total⟩ ⟨fun _ _ _ h1 h2 => strLe_trans h1 h2⟩ (d.map Prod.fst)

theorem sortedKeys_perm (d : List (String × String)) :
    (sortedKeys d).Perm (d.map Prod.fst) :=
  List.perm_insertionSort _ _

theorem configPairs_map_fst (d : List (String × String)) :
    (configPairs d).map Prod.fst =
      (sortedKeys d).filter (fun k => !(lookupD d k == "")) := by
  unfold configPairs
  induction sortedKeys d with
  | nil => rfl
  | cons k ks ih =>
      by_cases h : lookupD d k = ""
      · simp [List.filterMap_cons, List.filter_cons, h, ih]
      · simp [List.filterMap_cons, List.filter_cons, h, ih]

theorem configLines_eq (d : List (String × String)) :
    configLines d = (configPairs d).map (fun p => p.1 ++ "=" ++ p.2) := by
  unfold configLines configPairs
  induction sortedKeys d with
  | nil => rfl
  | cons k ks ih =>
      by_cases h : lookupD d k = ""
      · simp [List.filterMap_cons, h, ih]
      · simp [List.filterMap_cons, h, ih]

theorem mem_configPairs (d : List (String × String)) (k v : String) :
    (k, v) ∈ configPairs d ↔
      (k ∈ d.map Prod.fst ∧ v = lookupD d k ∧ v ≠ "") := by
  unfold configPairs
  rw [List.mem_filterMap]
  constructor
  · rintro ⟨k2, hk2, hf⟩
    by_cases h : lookupD d k2 = ""
    · simp [h] at hf
    · simp only [h, if_false, Option.some.injEq, Prod.mk.injEq] at hf
      obtain ⟨hk, hv⟩ := hf
      subst hk
      exact ⟨(sortedKeys_perm d).mem_iff.mp hk2, hv.symm, by rw [← hv]; exact h⟩
  · rintro ⟨hk, hv, hne⟩
    subst hv
    refine ⟨k, (sortedKeys_perm d).mem_iff.mpr hk, ?_⟩
    rw [if_neg hne]

theorem configPairs_fst_sorted (d : List (String × String)) :
    ((configPairs d).map Prod.fst).Sorted (fun a b : String => a ≤ b) := by
  rw [configPairs_map_fst]
  exact (List.Pairwise.sublist (List.filter_sublist _) (sortedKeys_sorted d)).imp
    (fun h => (strLe_iff_le _ _).mp h)

theorem configPairs_fst_nodup (d : List (String × String))
    (h : (d.map Prod.fst).Nodup) : ((configPairs d).map Prod.fst).Nodup := by
  rw [configPairs_map_fst]
  exact ((sortedKeys_perm d).nodup_iff.mpr h).filter _

theorem pyContents_renders (d : List (String × String))
    (h : (d.map Prod.fst).Nodup) : RendersSortedKV (pyContents d) d :=
  ⟨by rw [pyContents, configLines_eq], configPairs_fst_sorted d,
   configPairs_fst_nodup d h, mem_configPairs d⟩

theorem ch_to_dict_keys_some (info : S3ConnectionInfo) :
    (ConfigurationHubConfig.to_dict (some info)).map Prod.fst =
      ["spark.hadoop.fs.s3a.endpoint", "spark.hadoop.fs.s3a.access.key",
       "spark.hadoop.fs.s3a.secret.key", "spark.eventLog.dir",
       "spark.history.fs.logDirectory",
       "spark.hadoop.fs.s3a.aws.credentials.provider",
       "spark.hadoop.fs.s3a.connection.ssl.enabled"] := rfl

theorem sch_to_dict_keys_some (info : S3ConnectionInfo) :
    (SparkConfigurationHubConfig.to_dict (some info)).map Prod.fst =
      ["spark.hadoop.fs.s3a.connection.ssl.enabled",
       "spark.hadoop.fs.s3a.path.style.access", "spark.eventLog.enabled",
       "spark.hadoop.fs.s3a.endpoint", "spark.hadoop.fs.s3a.access.key",
       "spark.hadoop.fs.s3a.secret.key", "spark.eventLog.dir",
       "spark.history.fs.logDirectory",
       "spark.hadoop.fs.s3a.aws.credentials.provider"] := rfl

theorem ch_to_dict_keys_nodup (s3 : Option S3ConnectionInfo) :
    ((ConfigurationHubConfig.to_dict s3).map Prod.fst).Nodup := by
  cases s3 with
  | none => decide
  | some info =>
      rw [ch_to_dict_keys_some info]
      decide

theorem sch_to_dict_keys_nodup (s3 : Option S3ConnectionInfo) :
    ((SparkConfigurationHubConfig.to_dict s3).map Prod.fst).Nodup := by
  cases s3 with
  | none => decide
  | some info =>
      rw [sch_to_dict_keys_some info]
      decide

/-- C7: for every rendered configuration of either renderer (S3 info
present or absent), the serialized contents are the newline-join of one
`key=value` line per key, with keys sorted lexicographically ascending and
duplicate-free, keys with an empty value omitted, and no trailing
separator after the final entry. -/
theorem c7_contents_serialization (s3 : Option S3ConnectionInfo) :
    RendersSortedKV (ConfigurationHubConfig.contents s3)
      (ConfigurationHubConfig.to_dict s3) ∧
    RendersSortedKV (SparkConfigurationHubConfig.contents s3)
      (SparkConfigurationHubConfig.to_dict s3) :=
  ⟨pyContents_renders _ (ch_to_dict_keys_nodup s3),
   pyContents_renders _ (sch_to_dict_keys_nodup s3)⟩

/-- C7 witness: with no S3 relation, the flat renderer's pair list
contains the base entry `spark.eventLog.enabled=true`. -/
theorem c7_contents_serialization_witness :
    ("spark.eventLog.enabled", "true") ∈
      configPairs (SparkConfigurationHubConfig.to_dict none) :=
  ((c7_contents_serialization none).2.2.2.2 "spark.eventLog.enabled" "true").mpr
    ⟨by decide, by decide, by decide⟩

/-- C8 counterexample: with an S3 connection whose endpoint is
`https://s3.example.com` (and concrete credentials), the flat renderer
`SparkConfigurationHubConfig.contents` (`src/config.py`) does NOT render
the line `spark.hadoop.fs.s3a.connection.ssl.enabled=true`: its base
mapping pins the SSL flag to `"false"` and its S3 overlay never overrides
it, so the rendered text carries
`spark.hadoop.fs.s3a.connection.ssl.enabled=false` instead. -/
theorem c8_flat_renderer_ssl_false :
    ((configLines (SparkConfigurationHubConfig.to_dict
        (some ⟨some "https://s3.example.com", "ak", "sk", "pth", "bkt",
          none⟩))).contains
      "spark.hadoop.fs.s3a.connection.ssl.enabled=true") = false ∧
    "spark.hadoop.fs.s3a.connection.ssl.enabled=false" ∈
      configLines (SparkConfigurationHubConfig.to_dict
        (some ⟨some "https://s3.example.com", "ak", "sk", "pth", "bkt",
          none⟩)) := by
  constructor
  · decide
  · decide

/-- C8 (amended): with an S3 connection info whose endpoint is
`https://s3.example.com` present, the managers renderer
`ConfigurationHubConfig` renders both the line
`spark.hadoop.fs.s3a.endpoint=https://s3.example.com` and the line
`spark.hadoop.fs.s3a.connection.ssl.enabled=true`; when verification
succeeds, the events status engine (with runtime ready, trusted and
services active) reports ACTIVE, and the flat charm's `get_status`
reports ACTIVE.  (The flat renderer of `src/config.py` instead renders
the SSL flag as `false`; see the counterexample.) -/
theorem c8_https_endpoint_scenario (ak sk pth bkt : String)
    (tls : Option (List String)) :
    "spark.hadoop.fs.s3a.endpoint=https://s3.example.com" ∈
      configLines (ConfigurationHubConfig.to_dict
        (some ⟨some "https://s3.example.com", ak, sk, pth, bkt, tls⟩)) ∧
    "spark.hadoop.fs.s3a.connection.ssl.enabled=true" ∈
      configLines (ConfigurationHubConfig.to_dict
        (some ⟨some "https://s3.example.com", ak, sk, pth, bkt, tls⟩)) ∧
    (∀ verify : S3ConnectionInfo → Bool,
      verify ⟨some "https://s3.example.com", ak, sk, pth, bkt, tls⟩ = true →
      get_app_status true true
        (some ⟨some "https://s3.example.com", ak, sk, pth, bkt, tls⟩)
        verify true = Status.ACTIVE) ∧
    get_status (some ⟨some "https://s3.example.com", ak, sk, pth, bkt, tls⟩)
      ProbeResult.ok = Except.ok ModelsStatus.ACTIVE := by
  refine ⟨?_, ?_, ?_, rfl⟩
  · rw [configLines_eq]
    refine List.mem_map.mpr ⟨("spark.hadoop.fs.s3a.endpoint",
      "https://s3.example.com"), ?_, rfl⟩
    refine (mem_configPairs _ _ _).mpr ⟨?_, rfl, by decide⟩
    rw [ch_to_dict_keys_some]
    decide
  · rw [configLines_eq]
    refine List.mem_map.mpr ⟨("spark.hadoop.fs.s3a.connection.ssl.enabled",
      "true"), ?_, rfl⟩
    refine (mem_configPairs _ _ _).mpr ⟨?_, rfl, by decide⟩
    rw [ch_to_dict_keys_some]
    decide
  · intro verify hv
    simp [get_app_status, hv]

/-- C8 witness: concrete instantiation of the amended scenario, with the
verification oracle answering true. -/
theorem c8_https_endpoint_scenario_witness :
    get_app_status true true
      (some ⟨some "https://s3.example.com", "ak", "sk", "pth", "bkt", none⟩)
      (fun _ => true) true = Status.ACTIVE :=
  (c8_https_endpoint_scenario "ak" "sk" "pth" "bkt" none).2.2.1
    (fun _ => true) rfl

theorem hasFile_writeFile_self (f : List (String × String)) (p c : String) :
    hasFile (writeFile f p c) p = true := by
  unfold hasFile writeFile
  by_cases h : f.any (fun q => q.1 == p)
  · rw [if_pos h, List.any_map]
    rcases List.any_eq_true.mp h with ⟨q, hq, hq2⟩
    refine List.any_eq_true.mpr ⟨q, hq, ?_⟩
    simp only [Function.comp]
    rw [if_pos hq2]
    exact beq_self_eq_true p
  · rw [if_neg h, List.any_append]
    simp

theorem hasFile_writeFile (f : List (String × String)) (p q c : String) :
    hasFile (writeFile f q c) p = (hasFile f p || p == q) := by
  unfold hasFile writeFile
  by_cases h : f.any (fun r => r.1 == q)
  · rw [if_pos h, List.any_map]
    by_cases hpq : p = q
    · subst hpq
      rcases List.any_eq_true.mp h with ⟨r, hr, hr2⟩
      have hl : (List.any f ((fun r => r.1 == p) ∘ fun r =>
          if r.1 == p then (p, c) else r)) = true := by
        refine List.any_eq_true.mpr ⟨r, hr, ?_⟩
        simp only [Function.comp]
        rw [if_pos hr2]
        exact beq_self_eq_true p
      rw [hl, h]
      simp
    · have hl : ∀ r : String × String,
          ((fun r => r.1 == p) ∘ fun r => if r.1 == q then (q, c) else r) r =
            (r.1 == p) := by
        intro r
        simp only [Function.comp]
        by_cases hr : r.1 == q
        · rw [if_pos hr]
          have : (q == p) = false := by
            exact beq_eq_false_iff_ne.mpr (fun hh => hpq hh.symm)
          rw [this]
          have : (r.1 == p) = false := by
            refine beq_eq_false_iff_ne.mpr ?_
            intro hh
            exact hpq (hh ▸ (eq_of_beq hr) ▸ rfl)
          rw [this]
        · rw [if_neg hr]
      rw [funext hl]
      have : (p == q) = false := beq_eq_false_iff_ne.mpr hpq
      rw [this]
      simp
  · rw [if_neg h, List.any_append]
    simp [BEq.comm]

theorem writeFile_key_val (f : List (String × String)) (p c : String) :
    ∀ r ∈ writeFile f p c, r.1 = p → r.2 = c := by
  unfold writeFile
  by_cases h : f.any (fun q => q.1 == p)
  · rw [if_pos h]
    intro r hr hrp
    rcases List.mem_map.mp hr with ⟨x, hx, hxr⟩
    by_cases hxp : x.1 == p
    · rw [if_pos hxp] at hxr
      rw [← hxr]
    · rw [if_neg hxp] at hxr
      subst hxr
      exact absurd (by exact beq_iff_eq.mpr hrp) (by simpa using hxp)
  · rw [if_neg h]
    intro r hr hrp
    rcases List.mem_append.mp hr with hr1 | hr2
    · exfalso
      have : f.any (fun q => q.1 == p) = true :=
        List.any_eq_true.mpr ⟨r, hr1, beq_iff_eq.mpr hrp⟩
      exact h this
    · rcases List.mem_singleton.mp hr2 with h2
      rw [h2]

theorem writeFile_key_val_other (f : List (String × String)) (p q c e : String)
    (hpq : p ≠ q) (hval : ∀ r ∈ f, r.1 = p → r.2 = c) :
    ∀ r ∈ writeFile f q e, r.1 = p → r.2 = c := by
  unfold writeFile
  by_cases h : f.any (fun r => r.1 == q)
  · rw [if_pos h]
    intro r hr hrp
    rcases List.mem_map.mp hr with ⟨x, hx, hxr⟩
    by_cases hxq : x.1 == q
    · rw [if_pos hxq] at hxr
      subst hxr
      exact absurd hrp (fun hh => hpq hh.symm)
    · rw [if_neg hxq] at hxr
      subst hxr
      exact hval x hx hrp
  · rw [if_neg h]
    intro r hr hrp
    rcases List.mem_append.mp hr with hr1 | hr2
    · exact hval r hr1 hrp
    · rcases List.mem_singleton.mp hr2 with h2
      subst h2
      exact absurd hrp (fun hh => hpq hh.symm)

theorem map_overwrite_eq_self (p c : String) :
    ∀ g : List (String × String), (∀ r ∈ g, r.1 = p → r.2 = c) →
      g.map (fun r => if r.1 == p then (p, c) else r) = g
  | [], _ => rfl
  | x :: xs, hval => by
      have hx : (if x.1 == p then (p, c) else x) = x := by
        by_cases hxp : x.1 == p
        · rw [if_pos hxp]
          have h1 : x.1 = p := eq_of_beq hxp
          have h2 : x.2 = c := hval x (List.mem_cons_self x xs) h1
          cases x
          simp_all
        · rw [if_neg hxp]
      simp only [List.map_cons, hx,
        map_overwrite_eq_self p c xs
          (fun r hr => hval r (List.mem_cons_of_mem x hr))]

theorem writeFile_eq_self (g : List (String × String)) (p c : String)
    (hmem : hasFile g p = true) (hval : ∀ r ∈ g, r.1 = p → r.2 = c) :
    writeFile g p c = g := by
  unfold writeFile
  have hm : (g.any fun r => r.1 == p) = true := hmem
  rw [if_pos hm]
  exact map_overwrite_eq_self p c g hval

theorem writeFile_writeFile_self (f : List (String × String)) (p c : String) :
    writeFile (writeFile f p c) p c = writeFile f p c :=
  writeFile_eq_self _ p c (hasFile_writeFile_self f p c) (writeFile_key_val f p c)

theorem mergeSingle_part1 (K v : String) :
    ∀ a : List (String × String),
      List.filterMap (fun p : String × Option String => p.2.map (fun w => (p.1, w)))
        (List.map (fun p : String × Option String =>
            ((List.find? (fun q => q.1 == p.1) [(K, some v)]).map
              (fun q => (p.1, q.2))).getD p)
          (List.map (fun p : String × String => (p.1, some p.2)) a)) =
      a.map (fun x => if x.1 == K then (K, v) else x)
  | [] => rfl
  | x :: a => by
      by_cases hk : K == x.1
      · have hx1 : x.1 = K := (eq_of_beq hk).symm
        have hfind : List.find? (fun q : String × Option String => q.1 == x.1)
            [(K, some v)] = some (K, some v) :=
          List.find?_cons_of_pos _ hk
        simp only [List.map_cons, List.filterMap_cons, hfind, Option.map_some,
          Option.getD_some]
        rw [mergeSingle_part1 K v a]
        have hk2 : (x.1 == K) = true := beq_iff_eq.mpr hx1
        simp [hk2, hx1]
      · have hfind : List.find? (fun q : String × Option String => q.1 == x.1)
            [(K, some v)] = none := by
          rw [List.find?_cons_of_neg _ ?_]
          · rfl
          · intro hh
            exact hk (by simpa using hh)
        simp only [List.map_cons, List.filterMap_cons, hfind, Option.map_none,
          Option.getD_none, Option.map_some]
        rw [mergeSingle_part1 K v a]
        have hk2 : (x.1 == K) = false := by
          refine beq_eq_false_iff_ne.mpr ?_
          intro hh
          exact hk (beq_iff_eq.mpr hh.symm)
        simp [hk2]

theorem pyMergeEnv_single (a : List (String × String)) (K v : String) :
    pyMergeEnv a [(K, some v)] = writeFile a K v := by
  unfold pyMergeEnv dictUnion writeFile
  rw [List.filterMap_append, mergeSingle_part1 K v a]
  by_cases h : a.any (fun x => x.1 == K)
  · rw [if_pos h]
    rcases List.any_eq_true.mp h with ⟨x, hx, hpx⟩
    have hsome : (List.find? (fun x : String × String => x.1 == K) a).isSome = true := by
      rw [List.find?_isSome]
      exact ⟨x, hx, hpx⟩
    rcases Option.isSome_iff_exists.mp hsome with ⟨y, hy⟩
    have hfilter :
        List.filter (fun q : String × Option String =>
            (List.find? (fun p => p.1 == q.1)
              (List.map (fun p : String × String => (p.1, some p.2)) a)).isNone)
          [(K, some v)] = [] := by
      rw [List.filter_cons, List.find?_map]
      have hcomp : ((fun p : String × Option String => p.1 == (K, some v).1) ∘
          (fun p : String × String => (p.1, some p.2))) =
          (fun x : String × String => x.1 == K) := rfl
      rw [hcomp, hy]
      rfl
    rw [hfilter]
    rw [List.filterMap_nil, List.append_nil]
  · rw [if_neg h]
    have hnone : (List.find? (fun x : String × String => x.1 == K) a) = none := by
      rw [List.find?_eq_none]
      intro x hx hpx
      exact h (List.any_eq_true.mpr ⟨x, hx, hpx⟩)
    have hfilter :
        List.filter (fun q : String × Option String =>
            (List.find? (fun p => p.1 == q.1)
              (List.map (fun p : String × String => (p.1, some p.2)) a)).isNone)
          [(K, some v)] = [(K, some v)] := by
      rw [List.filter_cons, List.find?_map]
      have hcomp : ((fun p : String × Option String => p.1 == (K, some v).1) ∘
          (fun p : String × String => (p.1, some p.2))) =
          (fun x : String × String => x.1 == K) := rfl
      rw [hcomp, hnone]
      rfl
    rw [hfilter]
    have hval : ∀ r ∈ a, r.1 = K → r.2 = v := by
      intro r hr hrk
      have hb : (r.1 == K) = true := beq_iff_eq.mpr hrk
      exact absurd (List.any_eq_true.mpr ⟨r, hr, hb⟩) h
    rw [map_overwrite_eq_self K v a hval]
    simp

theorem update_noFault_closed (s3 : Option S3ConnectionInfo) (st : WorkloadState) :
    ConfigurationHubManager.update noFault s3 st =
      (Except.ok (),
       { files := writeFile
           (writeFile st.files sparkPropertiesPath (ConfigurationHubConfig.contents s3))
           envFilePath
           (serializeEnvs (writeFile st.envs "SPARK_PROPERTIES_FILE" sparkPropertiesPath)),
         envs := writeFile st.envs "SPARK_PROPERTIES_FILE" sparkPropertiesPath,
         serviceEnv := writeFile st.envs "SPARK_PROPERTIES_FILE" sparkPropertiesPath,
         running := true }) := by
  have hsp : hasFile
      (writeFile
        (writeFile st.files sparkPropertiesPath (ConfigurationHubConfig.contents s3))
        envFilePath
        (serializeEnvs (writeFile st.envs "SPARK_PROPERTIES_FILE" sparkPropertiesPath)))
      sparkPropertiesPath = true := by
    rw [hasFile_writeFile, hasFile_writeFile_self]
    rfl
  unfold ConfigurationHubManager.update Workload.stopRun Workload.writeRun
    Workload.setEnvironmentRun Workload.startRun
  simp only [noFault, Bool.false_eq_true, if_false, pyMergeEnv_single]
  unfold Workload.writeRun
  simp only [Bool.false_eq_true, if_false]
  simp only [hsp, Bool.not_true, if_false]
  rfl

/-- C4: reconciliation is idempotent: for every input (S3 connection info
present or absent) and every starting workload state, the fault-free
`update` succeeds, and running it a second time with the identical input
returns successfully with exactly the same state — in particular
byte-identical configuration-file and environment-file contents and the
same final running state. -/
theorem c4_update_idempotent (s3 : Option S3ConnectionInfo) (st : WorkloadState) :
    (ConfigurationHubManager.update noFault s3 st).1 = Except.ok () ∧
    ConfigurationHubManager.update noFault s3
        (ConfigurationHubManager.update noFault s3 st).2 =
      (Except.ok (), (ConfigurationHubManager.update noFault s3 st).2) := by
  have hne : sparkPropertiesPath ≠ envFilePath := by decide
  constructor
  · rw [update_noFault_closed]
  · rw [update_noFault_closed s3 st]
    rw [update_noFault_closed s3 _]
    have hE : writeFile (writeFile st.envs "SPARK_PROPERTIES_FILE" sparkPropertiesPath)
        "SPARK_PROPERTIES_FILE" sparkPropertiesPath =
        writeFile st.envs "SPARK_PROPERTIES_FILE" sparkPropertiesPath :=
      writeFile_writeFile_self _ _ _
    simp only [hE]
    have hmem : hasFile
        (writeFile (writeFile st.files sparkPropertiesPath (ConfigurationHubConfig.contents s3))
          envFilePath
          (serializeEnvs (writeFile st.envs "SPARK_PROPERTIES_FILE" sparkPropertiesPath)))
        sparkPropertiesPath = true := by
      rw [hasFile_writeFile, hasFile_writeFile_self]
      rfl
    have hval := writeFile_key_val_other
      (writeFile st.files sparkPropertiesPath (ConfigurationHubConfig.contents s3))
      sparkPropertiesPath envFilePath (ConfigurationHubConfig.contents s3)
      (serializeEnvs (writeFile st.envs "SPARK_PROPERTIES_FILE" sparkPropertiesPath))
      hne (writeFile_key_val st.files sparkPropertiesPath (ConfigurationHubConfig.contents s3))
    have hinner := writeFile_eq_self _ sparkPropertiesPath
      (ConfigurationHubConfig.contents s3) hmem hval
    rw [hinner]
    rw [writeFile_writeFile_self]

/-- C5: if an injected I/O failure makes the write or start step of
`update` raise, the sequence aborts with the error propagating to the
caller (the hypothesis), and the managed service — unconditionally stopped
at the start of the sequence — is left stopped, never (re)started. -/
theorem c5_update_failure_leaves_stopped (fault : FaultModel)
    (s3 : Option S3ConnectionInfo) (st : WorkloadState) (e : PyError)
    (h : (ConfigurationHubManager.update fault s3 st).1 = Except.error e) :
    (ConfigurationHubManager.update fault s3 st).2.running = false := by
  unfold ConfigurationHubManager.update Workload.stopRun Workload.writeRun
    Workload.setEnvironmentRun Workload.startRun at h ⊢
  by_cases hw : fault.writeFails
  · simp only [hw, if_true]
  · have hw2 : fault.writeFails = false := by
      simpa using hw
    simp only [hw2, Bool.false_eq_true, if_false] at h ⊢
    unfold Workload.writeRun at h ⊢
    simp only [hw2, Bool.false_eq_true, if_false] at h ⊢
    by_cases hf : hasFile
        (writeFile
          (writeFile st.files sparkPropertiesPath (ConfigurationHubConfig.contents s3))
          envFilePath
          (serializeEnvs (pyMergeEnv st.envs
            [("SPARK_PROPERTIES_FILE", some sparkPropertiesPath)])))
        sparkPropertiesPath
    · simp only [hf, Bool.not_true, Bool.false_eq_true, if_false] at h ⊢
      by_cases hs : fault.startFails
      · simp only [hs, if_true]
      · have hs2 : fault.startFails = false := by
          simpa using hs
        simp only [hs2, Bool.false_eq_true, if_false] at h
        cases h
    · have hf2 : hasFile
          (writeFile
            (writeFile st.files sparkPropertiesPath (ConfigurationHubConfig.contents s3))
            envFilePath
            (serializeEnvs (pyMergeEnv st.envs
              [("SPARK_PROPERTIES_FILE", some sparkPropertiesPath)])))
          sparkPropertiesPath = false := by
        simpa using hf
      simp only [hf2, Bool.not_false, if_true]

/-- C6: whenever the spark-properties configuration file is missing from
the filesystem at call time, `start()` raises the distinct
`FileNotFoundError` (for every fault injection), and the managed service
is not restarted: the resulting state differs from the input state only in
the supervisor layer's environment, and `running` is unchanged. -/
theorem c6_start_missing_config (fault : FaultModel) (st : WorkloadState)
    (h : hasFile st.files sparkPropertiesPath = false) :
    Workload.startRun fault st =
      (Except.error PyError.fileNotFoundError, { st with serviceEnv := st.envs }) ∧
    (Workload.startRun fault st).2.running = st.running := by
  have h1 : Workload.startRun fault st =
      (Except.error PyError.fileNotFoundError, { st with serviceEnv := st.envs }) := by
    unfold Workload.startRun
    simp only [h, Bool.not_false, if_true]
  exact ⟨h1, by rw [h1]⟩

/-- C5 witness: a concrete failing write aborts the sequence and leaves a
previously running service stopped. -/
theorem c5_witness :
    (ConfigurationHubManager.update ⟨true, false⟩ none
      ⟨[], [], [], true⟩).2.running = false :=
  c5_update_failure_leaves_stopped ⟨true, false⟩ none ⟨[], [], [], true⟩
    PyError.ioError rfl

/-- C6 witness: starting on an empty filesystem raises FileNotFoundError
and leaves the running flag untouched. -/
theorem c6_witness :
    Workload.startRun noFault ⟨[], [], [], true⟩ =
      (Except.error PyError.fileNotFoundError,
        ({ files := [], envs := [], serviceEnv := [], running := true } : WorkloadState)) ∧
    (Workload.startRun noFault ⟨[], [], [], true⟩).2.running = true :=
  c6_start_missing_config noFault ⟨[], [], [], true⟩ rfl

theorem lookupAL_cons {β : Type} (p : String × β) (l : List (String × β)) (k : String) :
    lookupAL (p :: l) k = if p.1 == k then some p.2 else lookupAL l k := by
  by_cases hp : p.1 == k
  · rw [if_pos hp]
    unfold lookupAL
    rw [@List.find?_cons_of_pos _ (fun q => q.1 == k) p l hp]
    rfl
  · rw [if_neg hp]
    unfold lookupAL
    rw [@List.find?_cons_of_neg _ (fun q => q.1 == k) p l hp]

theorem lookupAL_append_some {β : Type} {u w : List (String × β)} {k : String}
    {v : β} (h : lookupAL u k = some v) : lookupAL (u ++ w) k = some v := by
  induction u with
  | nil => cases h
  | cons p u ih =>
      rw [List.cons_append, lookupAL_cons]
      rw [lookupAL_cons] at h
      by_cases hp : p.1 == k
      · rw [if_pos hp] at h ⊢
        exact h
      · rw [if_neg hp] at h ⊢
        exact ih h

theorem lookupAL_append_none {β : Type} {u w : List (String × β)} {k : String}
    (h : lookupAL u k = none) : lookupAL (u ++ w) k = lookupAL w k := by
  induction u with
  | nil => rfl
  | cons p u ih =>
      rw [List.cons_append, lookupAL_cons]
      rw [lookupAL_cons] at h
      by_cases hp : p.1 == k
      · rw [if_pos hp] at h
        cases h
      · rw [if_neg hp] at h ⊢
        exact ih h

theorem dictUnion_lift_map (a : List (String × String))
    (b : List (String × Option String)) :
    (List.map (fun p : String × Option String =>
        ((b.find? (fun q => q.1 == p.1)).map (fun q => (p.1, q.2))).getD p)
      (List.map (fun p : String × String => (p.1, some p.2)) a)) =
    a.map (fun x => (x.1, (lookupAL b x.1).getD (some x.2))) := by
  rw [List.map_map]
  refine congrFun (congrArg List.map (funext ?_)) a
  intro x
  simp only [Function.comp]
  unfold lookupAL
  cases hf : b.find? (fun q => q.1 == x.1) with
  | none => rfl
  | some q => rfl

theorem lookupAL_filterMap_drop_not_mem
    (l : List (String × Option String)) (k : String)
    (h : ∀ r ∈ l, r.1 ≠ k) :
    lookupAL (l.filterMap (fun p => p.2.map (fun w => (p.1, w)))) k = none := by
  induction l with
  | nil => rfl
  | cons p l ih =>
      cases hp : p.2 with
      | none =>
          simp only [List.filterMap_cons, hp, Option.map_none, Option.map_none']
          exact ih (fun r hr => h r (List.mem_cons_of_mem p hr))
      | some w =>
          simp only [List.filterMap_cons, hp, Option.map_some, Option.map_some']
          rw [lookupAL_cons]
          have : ((p.1, w).1 == k) = false :=
            beq_eq_false_iff_ne.mpr (h p (List.mem_cons_self p l))
          rw [this, if_neg (by simp)]
          exact ih (fun r hr => h r (List.mem_cons_of_mem p hr))

theorem lookupAL_filterMap_drop_first
    (l : List (String × Option String)) (k v : String)
    (h : lookupAL l k = some (some v)) :
    lookupAL (l.filterMap (fun p => p.2.map (fun w => (p.1, w)))) k = some v := by
  induction l with
  | nil => cases h
  | cons p l ih =>
      rw [lookupAL_cons] at h
      by_cases hp : p.1 == k
      · rw [if_pos hp] at h
        have hpv : p.2 = some v := by
          injection h
        simp only [List.filterMap_cons, hpv, Option.map_some, Option.map_some']
        rw [lookupAL_cons]
        rw [if_pos hp]
      · rw [if_neg hp] at h
        cases hq : p.2 with
        | none =>
            simp only [List.filterMap_cons, hq, Option.map_none, Option.map_none']
            exact ih h
        | some w =>
            simp only [List.filterMap_cons, hq, Option.map_some, Option.map_some']
            rw [lookupAL_cons]
            rw [if_neg (by simpa using hp)]
            exact ih h

theorem lookupAL_filterMap_drop_all_none
    (l : List (String × Option String)) (k : String)
    (h : ∀ r ∈ l, r.1 = k → r.2 = none) :
    lookupAL (l.filterMap (fun p => p.2.map (fun w => (p.1, w)))) k = none := by
  induction l with
  | nil => rfl
  | cons p l ih =>
      cases hq : p.2 with
      | none =>
          simp only [List.filterMap_cons, hq, Option.map_none, Option.map_none']
          exact ih (fun r hr => h r (List.mem_cons_of_mem p hr))
      | some w =>
          simp only [List.filterMap_cons, hq, Option.map_some, Option.map_some']
          rw [lookupAL_cons]
          have hp : ((p.1, w).1 == k) = false := by
            refine beq_eq_false_iff_ne.mpr ?_
            intro hpk
            have := h p (List.mem_cons_self p l) hpk
            rw [hq] at this
            cases this
          rw [hp, if_neg (by simp)]
          exact ih (fun r hr => h r (List.mem_cons_of_mem p hr))

theorem lookupAL_filter_keyed (b : List (String × Option String))
    (A : List (String × Option String)) (k : String)
    (hA : (A.find? (fun p => p.1 == k)) = none) :
    lookupAL (b.filter (fun q => (A.find? (fun p => p.1 == q.1)).isNone)) k =
      lookupAL b k := by
  induction b with
  | nil => rfl
  | cons q b ih =>
      rw [List.filter_cons, lookupAL_cons]
      by_cases hq : q.1 == k
      · have hqk : q.1 = k := eq_of_beq hq
        have hpred : ((A.find? (fun p => p.1 == q.1)).isNone) = true := by
          rw [hqk, hA]
          rfl
        rw [if_pos hpred, lookupAL_cons, if_pos hq, if_pos hq]
      · rw [if_neg hq]
        by_cases hpred : (A.find? (fun p => p.1 == q.1)).isNone
        · rw [if_pos hpred, lookupAL_cons, if_neg hq]
          exact ih
        · rw [if_neg hpred]
          exact ih

theorem filter_keyed_no_k (b : List (String × Option String))
    (A : List (String × Option String)) (k : String)
    (hA : (A.find? (fun p => p.1 == k)).isSome = true) :
    ∀ r ∈ b.filter (fun q => (A.find? (fun p => p.1 == q.1)).isNone), r.1 ≠ k := by
  intro r hr hrk
  have hmem := List.of_mem_filter hr
  rw [hrk] at hmem
  rw [Option.isNone_iff_eq_none] at hmem
  rw [hmem] at hA
  cases hA

theorem nodup_lookupAL {β : Type} (l : List (String × β)) (k : String)
    (hnd : (l.map Prod.fst).Nodup) (r : String × β) (hr : r ∈ l) (hrk : r.1 = k) :
    lookupAL l k = some r.2 := by
  induction l with
  | nil => cases hr
  | cons p l ih =>
      rw [lookupAL_cons]
      rcases List.mem_cons.mp hr with hr1 | hr2
      · subst hr1
        rw [if_pos (beq_iff_eq.mpr hrk)]
      · have hp : (p.1 == k) = false := by
          refine beq_eq_false_iff_ne.mpr ?_
          intro hpk
          have hk : k ∈ l.map Prod.fst := by
            refine List.mem_map.mpr ⟨r, hr2, hrk⟩
          rw [List.map_cons, List.nodup_cons] at hnd
          exact hnd.1 (hpk ▸ hk)
        rw [if_neg (by simp [hp])]
        rw [List.map_cons, List.nodup_cons] at hnd
        exact ih hnd.2 hr2

theorem find?_lifted_eq (a : List (String × String)) (k : String) :
    ((a.map (fun p : String × String => (p.1, some p.2))).find?
        (fun p => p.1 == k)) =
      (a.find? (fun x => x.1 == k)).map
        (fun p : String × String => (p.1, some p.2)) := by
  rw [List.find?_map]
  rfl

theorem lookupAL_mapped (a : List (String × String))
    (b : List (String × Option String)) (k : String) :
    lookupAL (a.map (fun x : String × String =>
        (x.1, (lookupAL b x.1).getD (some x.2)))) k =
      (a.find? (fun x => x.1 == k)).map
        (fun x : String × String => (lookupAL b x.1).getD (some x.2)) := by
  show (List.find? (fun p => p.1 == k)
      (a.map (fun x : String × String =>
        (x.1, (lookupAL b x.1).getD (some x.2))))).map (fun p => p.2) =
    (a.find? (fun x => x.1 == k)).map
      (fun x : String × String => (lookupAL b x.1).getD (some x.2))
  rw [List.find?_map]
  have hcomp : ((fun p : String × Option String => p.1 == k) ∘
      (fun x : String × String => (x.1, (lookupAL b x.1).getD (some x.2)))) =
      (fun x : String × String => x.1 == k) := rfl
  rw [hcomp]
  cases hfa : a.find? (fun x => x.1 == k) with
  | none => rfl
  | some x => rfl

theorem pyMergeEnv_lookup_set (a : List (String × String))
    (b : List (String × Option String)) (k v : String)
    (h : lookupAL b k = some (some v)) :
    lookupAL (pyMergeEnv a b) k = some v := by
  unfold pyMergeEnv dictUnion
  rw [List.filterMap_append, dictUnion_lift_map]
  cases hf : a.find? (fun x => x.1 == k) with
  | some x =>
      have hpx := List.find?_some hf
      have hxk : x.1 = k := eq_of_beq hpx
      have hX : lookupAL (a.map (fun x : String × String =>
          (x.1, (lookupAL b x.1).getD (some x.2)))) k = some (some v) := by
        rw [lookupAL_mapped, hf, Option.map_some', hxk, h]
        rfl
      exact lookupAL_append_some (lookupAL_filterMap_drop_first _ _ _ hX)
  | none =>
      have hXnone : lookupAL (List.filterMap
          (fun p : String × Option String => p.2.map (fun w => (p.1, w)))
          (a.map (fun x : String × String =>
            (x.1, (lookupAL b x.1).getD (some x.2))))) k = none := by
        apply lookupAL_filterMap_drop_not_mem
        intro r hr hrk
        rcases List.mem_map.mp hr with ⟨x, hx, hxr⟩
        have hx1 : x.1 = k := by
          rw [← hxr] at hrk
          exact hrk
        exact List.find?_eq_none.mp hf x hx (beq_iff_eq.mpr hx1)
      rw [lookupAL_append_none hXnone]
      have hAnone : ((a.map (fun p : String × String => (p.1, some p.2))).find?
          (fun p => p.1 == k)) = none := by
        rw [find?_lifted_eq, hf]
        rfl
      have hfil := lookupAL_filter_keyed b _ k hAnone
      exact lookupAL_filterMap_drop_first _ _ _ (hfil.trans h)

theorem pyMergeEnv_lookup_removed (a : List (String × String))
    (b : List (String × Option String)) (k : String)
    (hnd : (b.map Prod.fst).Nodup) (h : lookupAL b k = some none) :
    lookupAL (pyMergeEnv a b) k = none := by
  unfold pyMergeEnv dictUnion
  rw [List.filterMap_append, dictUnion_lift_map]
  have hX : lookupAL (List.filterMap
      (fun p : String × Option String => p.2.map (fun w => (p.1, w)))
      (a.map (fun x : String × String =>
        (x.1, (lookupAL b x.1).getD (some x.2))))) k = none := by
    apply lookupAL_filterMap_drop_all_none
    intro r hr hrk
    rcases List.mem_map.mp hr with ⟨x, hx, hxr⟩
    rw [← hxr] at hrk ⊢
    have hx1 : x.1 = k := hrk
    show (lookupAL b x.1).getD (some x.2) = none
    rw [hx1, h]
    rfl
  rw [lookupAL_append_none hX]
  apply lookupAL_filterMap_drop_all_none
  intro r hr hrk
  have hrb : r ∈ b := List.mem_of_mem_filter hr
  have hlk := nodup_lookupAL b k hnd r hrb hrk
  rw [h] at hlk
  injection hlk with hh
  exact hh.symm

theorem pyMergeEnv_lookup_missing (a : List (String × String))
    (b : List (String × Option String)) (k : String)
    (h : lookupAL b k = none) :
    lookupAL (pyMergeEnv a b) k = lookupAL a k := by
  unfold pyMergeEnv dictUnion
  rw [List.filterMap_append, dictUnion_lift_map]
  have hbf : b.find? (fun p => p.1 == k) = none := by
    have := h
    unfold lookupAL at this
    exact Option.map_eq_none'.mp this
  cases hf : a.find? (fun x => x.1 == k) with
  | some x =>
      have hpx := List.find?_some hf
      have hxk : x.1 = k := eq_of_beq hpx
      have hX : lookupAL (a.map (fun x : String × String =>
          (x.1, (lookupAL b x.1).getD (some x.2)))) k = some (some x.2) := by
        rw [lookupAL_mapped, hf, Option.map_some']
        rw [show (lookupAL b x.1) = none from hxk ▸ h]
        rfl
      rw [lookupAL_append_some (lookupAL_filterMap_drop_first _ _ _ hX)]
      unfold lookupAL
      rw [hf]
      rfl
  | none =>
      have hXnone : lookupAL (List.filterMap
          (fun p : String × Option String => p.2.map (fun w => (p.1, w)))
          (a.map (fun x : String × String =>
            (x.1, (lookupAL b x.1).getD (some x.2))))) k = none := by
        apply lookupAL_filterMap_drop_not_mem
        intro r hr hrk
        rcases List.mem_map.mp hr with ⟨x, hx, hxr⟩
        have hx1 : x.1 = k := by
          rw [← hxr] at hrk
          exact hrk
        exact List.find?_eq_none.mp hf x hx (beq_iff_eq.mpr hx1)
      rw [lookupAL_append_none hXnone]
      have hY : lookupAL (List.filterMap
          (fun p : String × Option String => p.2.map (fun w => (p.1, w)))
          (b.filter (fun q => ((a.map (fun p : String × String =>
            (p.1, some p.2))).find? (fun p => p.1 == q.1)).isNone))) k = none := by
        apply lookupAL_filterMap_drop_not_mem
        intro r hr hrk
        have hrb : r ∈ b := List.mem_of_mem_filter hr
        exact List.find?_eq_none.mp hbf r hrb (beq_iff_eq.mpr hrk)
      rw [hY]
      unfold lookupAL
      rw [hf]
      rfl

theorem setEnvironmentRun_noFault (env : List (String × Option String))
    (st : WorkloadState) :
    Workload.setEnvironmentRun noFault env st =
      (Except.ok (),
       { files := writeFile st.files envFilePath
           (serializeEnvs (pyMergeEnv st.envs env)),
         envs := pyMergeEnv st.envs env,
         serviceEnv := st.serviceEnv,
         running := st.running }) := by
  unfold Workload.setEnvironmentRun Workload.writeRun
  simp only [noFault, Bool.false_eq_true, if_false]

theorem lookupAL_map_overwrite (p c : String) :
    ∀ f : List (String × String), f.any (fun q => q.1 == p) = true →
      lookupAL (f.map (fun r => if r.1 == p then (p, c) else r)) p = some c
  | [], h => by cases h
  | r :: f, h => by
      rw [List.map_cons]
      by_cases hr : r.1 == p
      · simp only [hr, if_true, lookupAL_cons]
        simp
      · have hrf : (r.1 == p) = false := by
          simpa using hr
        simp only [hrf, Bool.false_eq_true, if_false, lookupAL_cons]
        have htail : f.any (fun q => q.1 == p) = true := by
          rw [List.any_cons, hrf] at h
          simpa using h
        exact lookupAL_map_overwrite p c f htail

theorem lookupAL_writeFile_self (f : List (String × String)) (p c : String) :
    lookupAL (writeFile f p c) p = some c := by
  unfold writeFile
  by_cases h : f.any (fun q => q.1 == p)
  · rw [if_pos h]
    exact lookupAL_map_overwrite p c f h
  · rw [if_neg h]
    have hnone : lookupAL f p = none := by
      unfold lookupAL
      rw [List.find?_eq_none.mpr]
      · rfl
      · intro x hx hpx
        exact h (List.any_eq_true.mpr ⟨x, hx, hpx⟩)
    rw [lookupAL_append_none hnone, lookupAL_cons]
    simp

/-- C9: `set_environment(partial)` merges the partial mapping into the
persisted environment: a key mapped to an absent value is removed, a key
with a present value takes its new value, every other key keeps its old
binding; the merged mapping is persisted to the environment file, while
the live service layer and the running state are untouched (the new
environment takes effect only on the next start). -/
theorem c9_set_environment_merge (st : WorkloadState)
    (env : List (String × Option String)) (k : String)
    (hnd : (env.map Prod.fst).Nodup) :
    (Workload.setEnvironmentRun noFault env st).1 = Except.ok () ∧
    (lookupAL env k = some none →
      lookupAL (Workload.setEnvironmentRun noFault env st).2.envs k = none) ∧
    (∀ v : String, lookupAL env k = some (some v) →
      lookupAL (Workload.setEnvironmentRun noFault env st).2.envs k = some v) ∧
    (lookupAL env k = none →
      lookupAL (Workload.setEnvironmentRun noFault env st).2.envs k =
        lookupAL st.envs k) ∧
    lookupAL (Workload.setEnvironmentRun noFault env st).2.files envFilePath =
      some (serializeEnvs (Workload.setEnvironmentRun noFault env st).2.envs) ∧
    (Workload.setEnvironmentRun noFault env st).2.serviceEnv = st.serviceEnv ∧
    (Workload.setEnvironmentRun noFault env st).2.running = st.running := by
  rw [setEnvironmentRun_noFault]
  refine ⟨rfl, ?_, ?_, ?_, ?_, rfl, rfl⟩
  · intro h
    exact pyMergeEnv_lookup_removed st.envs env k hnd h
  · intro v h
    exact pyMergeEnv_lookup_set st.envs env k v h
  · intro h
    exact pyMergeEnv_lookup_missing st.envs env k h
  · exact lookupAL_writeFile_self st.files envFilePath
      (serializeEnvs (pyMergeEnv st.envs env))

/-- C9 witness: merging a removal of key "A" into an environment that
holds "A" deletes it from the resulting persisted mapping. -/
theorem c9_witness :
    lookupAL (Workload.setEnvironmentRun noFault
      [("A", (none : Option String)), ("C", some "3")]
      ⟨[], [("A", "1"), ("B", "2")], [], true⟩).2.envs "A" = none :=
  (c9_set_environment_merge ⟨[], [("A", "1"), ("B", "2")], [], true⟩
    [("A", (none : Option String)), ("C", some "3")] "A" (by decide)).2.1 rfl

end SparkHub
